import Mathlib

/-!
# Verification of the pumba chaos-injection engine (container client and CLI validation)

Shallow embedding of the repository:
* `src/unnamed/part_000` — the Docker container client (`KillContainer`,
  `StopContainer`, `waitForStop`, `RemoveContainer`, `PauseContainer`,
  `NetemContainer` and its helpers, `execOnContainer`);
* `src/main.go` — the CLI target resolution (`getNamesOrPattern`) and the
  per-command validation (`beforeCommand`, `pause`, `netemDelay`).

The Docker daemon is modelled as an environment (`DockerWorld`) of response
functions; every client operation returns the ordered list of observable
events (runtime calls, log lines, sleeps) together with its result.
Durations are abstracted to `Nat` (their `%s` rendering in log lines is
abstracted to `toString`); the second-granularity polling loop of
`waitForStop` is modelled with one fuel unit per second, matching the
`time.After(waitTime * time.Second)` / `time.Sleep(1 * time.Second)` pair
in the source.  `time.ParseDuration` and `net.ParseIP` are external
standard-library collaborators and are passed in as oracle arguments
(respectively already-parsed `Option String` input).
-/

namespace Pumba

/-- Result of a Go function returning `error` (`ok` = `nil`). -/
inductive Res where
  | ok : Res
  | err (msg : String) : Res
deriving DecidableEq, Repr

/-- Result of a Go function returning `(α, error)`. -/
inductive ERes (α : Type) where
  | ok (val : α) : ERes α
  | err (msg : String) : ERes α
deriving DecidableEq, Repr

/-- `enginetypes.ContainerRemoveOptions`, the flags of a runtime remove request. -/
structure RemoveOpts where
  removeVolumes : Bool
  removeLinks : Bool
  force : Bool
deriving DecidableEq, Repr

/-- One call issued by the client against the container runtime. -/
inductive RCall where
  | kill (cid sig : String)
  | inspect (cid : String)
  | pause (cid : String)
  | unpause (cid : String)
  | remove (cid : String) (opts : RemoveOpts)
  | execCreate (cid : String) (cmd : List String) (priv : Bool)
  | execStart (eid : String)
deriving DecidableEq, Repr

/-- An observable event of a client operation, in program order. -/
inductive Event where
  | call (c : RCall)
  | log (line : String)
  | sleep (d : Nat)
deriving DecidableEq, Repr

/-- Result of `InspectContainer`: an error, or a state snapshot. -/
inductive InspectResult where
  | err (msg : String)
  | state (running : Bool)
deriving DecidableEq, Repr

/-- A container handle (`container.Container`): id, display name, labels. -/
structure Container where
  id : String
  name : String
  labels : List (String × String)
deriving DecidableEq, Repr

/-- Modelled from the spec: the key of the recognized stop-signal label
(the `Container` accessor file of the container package is absent from
`src/`; the spec describes "a recognized stop-signal label whose value is a
signal name" and the package tests use this key). -/
def stopSignalLabel : String := "com.gaiaadm.pumba.stop-signal"

/-- Modelled from the spec: `Container.StopSignal` returns the value of the
recognized stop-signal label when present, else the empty string. -/
def Container.StopSignal (c : Container) : String :=
  (c.labels.lookup stopSignalLabel).getD ""

/-- The container runtime's behaviour: responses to each kind of call.
`inspect` is indexed by the number of elapsed seconds so that the polling
loop of `waitForStop` can observe a changing state. -/
structure DockerWorld where
  killResult : String → String → Option String
  inspect : String → Nat → InspectResult
  pauseResult : String → Option String
  unpauseResult : String → Option String
  removeResult : String → RemoveOpts → Option String
  execCreate : String → List String → ERes String
  execStart : String → Option String

/-- `defaultStopSignal` constant of the container package. -/
def defaultStopSignal : String := "SIGTERM"

/-- `defaultKillSignal` constant of the container package. -/
def defaultKillSignal : String := "SIGKILL"

/-- `dryRunPrefix` constant of the container package. -/
def dryRunPre : String := "DRY: "

/-- Go's `strings.ToLower` (ASCII range; the `tc` command strings are ASCII). -/
def goToLower (s : String) : String := ⟨s.data.map Char.toLower⟩

/-- Splitting helper for `goSplitSpace`: split at each occurrence of `sep`,
keeping empty fields, with `acc` the reversed current field. -/
def splitOnCharAux (sep : Char) : List Char → List Char → List String
  | [], acc => [⟨acc.reverse⟩]
  | c :: cs, acc =>
    if c = sep then ⟨acc.reverse⟩ :: splitOnCharAux sep cs []
    else splitOnCharAux sep cs (c :: acc)

/-- Go's `strings.Split(s, " ")`, as used by `execOnContainer` to turn the
command string into argv. -/
def goSplitSpace (s : String) : List String := splitOnCharAux ' ' s.data []

/-- Go's `strings.HasPrefix`. -/
def goHasPre (s p : String) : Bool := s.data.take p.data.length == p.data

/-- The runtime calls of a trace, in order. -/
def callsOf (evs : List Event) : List RCall :=
  evs.filterMap fun e => match e with
    | Event.call r => some r
    | _ => none

/-- The log lines of a trace, in order. -/
def logsOf (evs : List Event) : List String :=
  evs.filterMap fun e => match e with
    | Event.log s => some s
    | _ => none

/-- The sleeps of a trace, in order. -/
def sleepsOf (evs : List Event) : List Nat :=
  evs.filterMap fun e => match e with
    | Event.sleep d => some d
    | _ => none

/-- `dockerClient.KillContainer` (part_000 lines 95-107). -/
def KillContainer (w : DockerWorld) (c : Container) (signal : String) (dryrun : Bool) :
    List Event × Res :=
  let pre := if dryrun then dryRunPre else ""
  let l0 := Event.log (pre ++ "Killing " ++ c.name ++ " (" ++ c.id ++ ") with signal " ++ signal)
  if dryrun then ([l0], Res.ok)
  else match w.killResult c.id signal with
    | some e => ([l0, Event.call (RCall.kill c.id signal)], Res.err e)
    | none => ([l0, Event.call (RCall.kill c.id signal)], Res.ok)

/-- `dockerClient.waitForStop` (part_000 lines 334-351): poll inspect once a
second until the container stops (`ok`), an inspect fails (`err`), or
`waitTime` seconds elapse (`ok`).  Arguments: fuel = remaining seconds,
`t` = current time; returns (events, result, time when returning). -/
def waitForStop (w : DockerWorld) (cid : String) : Nat → Nat → List Event × Res × Nat
  | 0, t => ([], Res.ok, t)
  | Nat.succ fuel, t =>
    match w.inspect cid t with
    | InspectResult.err e => ([Event.call (RCall.inspect cid)], Res.err e, t)
    | InspectResult.state false => ([Event.call (RCall.inspect cid)], Res.ok, t)
    | InspectResult.state true =>
      let R := waitForStop w cid fuel (t + 1)
      (Event.call (RCall.inspect cid) :: Event.sleep 1 :: R.1, R.2)

/-- The signal `StopContainer` sends first (part_000 lines 110-113):
the stop-signal label value if present, else `SIGTERM`. -/
def effectiveStopSignal (c : Container) : String :=
  if c.StopSignal = "" then defaultStopSignal else c.StopSignal

/-- `dockerClient.StopContainer` (part_000 lines 109-141). -/
def StopContainer (w : DockerWorld) (c : Container) (timeout : Nat) (dryrun : Bool) :
    List Event × Res :=
  let sig := effectiveStopSignal c
  let pre := if dryrun then dryRunPre else ""
  let l0 := Event.log (pre ++ "Stopping " ++ c.name ++ " (" ++ c.id ++ ") with " ++ sig)
  if dryrun then ([l0], Res.ok)
  else
    match w.killResult c.id sig with
    | some e => ([l0, Event.call (RCall.kill c.id sig)], Res.err e)
    | none =>
      let W1 := waitForStop w c.id timeout 0
      let errEvs : List Event :=
        match W1.2.1 with
        | Res.err e =>
          [Event.log ("Error waiting for container " ++ c.name ++ " (" ++ c.id ++
            ") to stop: \x27\x27" ++ e ++ "\x27")]
        | Res.ok => []
      let base := l0 :: Event.call (RCall.kill c.id sig) :: W1.1 ++ errEvs ++
        [Event.log ("Killing container " ++ c.id ++ " with " ++ defaultKillSignal),
         Event.call (RCall.kill c.id defaultKillSignal)]
      match w.killResult c.id defaultKillSignal with
      | some e => (base, Res.err e)
      | none =>
        let W2 := waitForStop w c.id timeout W1.2.2
        (base ++ W2.1,
          match W2.2.1 with
          | Res.ok =>
            Res.err ("Container " ++ c.name ++ " (" ++ c.id ++ ") could not be stopped")
          | Res.err _ => Res.ok)

/-- `dockerClient.RemoveContainer` (part_000 lines 179-194).  NOTE: faithful
to the source, which builds the request with `RemoveVolumes: links` and
`RemoveLinks: volumes`. -/
def RemoveContainer (w : DockerWorld) (c : Container)
    (force links volumes dryrun : Bool) : List Event × Res :=
  let pre := if dryrun then dryRunPre else ""
  let l0 := Event.log (pre ++ "Removing container " ++ c.id)
  if dryrun then ([l0], Res.ok)
  else
    let opts : RemoveOpts := { removeVolumes := links, removeLinks := volumes, force := force }
    match w.removeResult c.id opts with
    | some e => ([l0, Event.call (RCall.remove c.id opts)], Res.err e)
    | none => ([l0, Event.call (RCall.remove c.id opts)], Res.ok)

/-- `dockerClient.PauseContainer` (part_000 lines 218-237). -/
def PauseContainer (w : DockerWorld) (c : Container) (duration : Nat) (dryrun : Bool) :
    List Event × Res :=
  let pre := if dryrun then dryRunPre else ""
  let l0 := Event.log (pre ++ "Pausing container " ++ c.id ++ " for " ++ toString duration)
  if dryrun then ([l0], Res.ok)
  else
    match w.pauseResult c.id with
    | some e => ([l0, Event.call (RCall.pause c.id)], Res.err e)
    | none =>
      let evs := [l0, Event.call (RCall.pause c.id),
        Event.log ("Container " ++ c.id ++ " paused for " ++ toString duration),
        Event.sleep duration,
        Event.call (RCall.unpause c.id)]
      match w.unpauseResult c.id with
      | some e => (evs, Res.err e)
      | none =>
        (evs ++ [Event.log ("Container upaused " ++ c.id ++ " after " ++ toString duration)],
         Res.ok)

/-- `dockerClient.execOnContainer` (part_000 lines 319-332): create a
privileged exec from the space-split command, then start it. -/
def execOnContainer (w : DockerWorld) (c : Container) (execCmd : String) (priv : Bool) :
    List Event × Res :=
  let cmd := goSplitSpace execCmd
  match w.execCreate c.id cmd with
  | ERes.err e => ([Event.call (RCall.execCreate c.id cmd priv)], Res.err e)
  | ERes.ok eid =>
    ([Event.call (RCall.execCreate c.id cmd priv),
      Event.log ("Starting Exec " ++ execCmd ++ " (" ++ eid ++ ")"),
      Event.call (RCall.execStart eid)],
     match w.execStart eid with
     | some e => Res.err e
     | none => Res.ok)

/-- `dockerClient.startNetemContainer` (part_000 lines 239-256). -/
def startNetemContainer (w : DockerWorld) (c : Container)
    (netInterface netemCmd : String) (dryrun : Bool) : List Event × Res :=
  let pre := if dryrun then dryRunPre else ""
  let l0 := Event.log (pre ++ "Start netem for container " ++ c.id ++ " on \x27" ++
    netInterface ++ "\x27 with command \x27" ++ netemCmd ++ "\x27")
  if dryrun then ([l0], Res.ok)
  else
    let netemCommand := "tc qdisc add dev " ++ netInterface ++ " root netem " ++
      goToLower netemCmd
    let E := execOnContainer w c netemCommand true
    (l0 :: Event.log ("netem command \x27" ++ netemCommand ++ "\x27") :: E.1, E.2)

/-- `dockerClient.stopNetemContainer` (part_000 lines 258-272). -/
def stopNetemContainer (w : DockerWorld) (c : Container)
    (netInterface : String) (dryrun : Bool) : List Event × Res :=
  let pre := if dryrun then dryRunPre else ""
  let l0 := Event.log (pre ++ "Stop netem for container " ++ c.id ++ " on \x27" ++
    netInterface ++ "\x27")
  if dryrun then ([l0], Res.ok)
  else
    let netemCommand := "tc qdisc del dev " ++ netInterface ++ " root netem"
    let E := execOnContainer w c netemCommand true
    (l0 :: Event.log ("netem command \x27" ++ netemCommand ++ "\x27") :: E.1, E.2)

/-- `dockerClient.startNetemContainerIPFilter` (part_000 lines 274-317):
three `tc` commands, each run before the next, aborting on the first error. -/
def startNetemContainerIPFilter (w : DockerWorld) (c : Container)
    (netInterface netemCmd targetIP : String) (dryrun : Bool) : List Event × Res :=
  let pre := if dryrun then dryRunPre else ""
  let l0 := Event.log (pre ++ "Start netem for container " ++ c.id ++ " on \x27" ++
    netInterface ++ "\x27 with command \x27" ++ netemCmd ++ "\x27, filter by IP \x27" ++
    targetIP ++ "\x27")
  if dryrun then ([l0], Res.ok)
  else
    let handleCommand := "tc qdisc add dev " ++ netInterface ++ " root handle 1: prio"
    let E1 := execOnContainer w c handleCommand true
    let evs1 := l0 :: Event.log ("handleCommand " ++ handleCommand) :: E1.1
    match E1.2 with
    | Res.err e => (evs1, Res.err e)
    | Res.ok =>
      let netemCommand := "tc qdisc add dev " ++ netInterface ++ " parent 1:3 netem " ++
        goToLower netemCmd
      let E2 := execOnContainer w c netemCommand true
      let evs2 := evs1 ++ Event.log ("netemCommand " ++ netemCommand) :: E2.1
      match E2.2 with
      | Res.err e => (evs2, Res.err e)
      | Res.ok =>
        let filterCommand := "tc filter add dev " ++ netInterface ++
          " protocol ip parent 1:0 prio 3 u32 match ip dport " ++ goToLower targetIP ++
          " flowid 1:3"
        let E3 := execOnContainer w c filterCommand true
        (evs2 ++ Event.log ("filterCommand " ++ filterCommand) :: E3.1, E3.2)

/-- `dockerClient.NetemContainer` (part_000 lines 196-216).  The sleep is
outside the dry-run guards of the start/stop helpers, so it happens in dry
mode too.  `targetIP` is the already-stringified `net.IP` (`none` = `nil`). -/
def NetemContainer (w : DockerWorld) (c : Container) (netInterface netemCmd : String)
    (targetIP : Option String) (duration : Nat) (dryrun : Bool) : List Event × Res :=
  let pre := if dryrun then dryRunPre else ""
  let S :=
    match targetIP with
    | none =>
      let S0 := startNetemContainer w c netInterface netemCmd dryrun
      (Event.log (pre ++ "Running netem command \x27" ++ netemCmd ++ "\x27 on container " ++
        c.id ++ " for " ++ toString duration) :: S0.1, S0.2)
    | some ip =>
      let S0 := startNetemContainerIPFilter w c netInterface netemCmd ip dryrun
      (Event.log (pre ++ "Running netem command \x27" ++ netemCmd ++ "\x27 on container " ++
        c.id ++ " with filter " ++ ip ++ " for " ++ toString duration) :: S0.1, S0.2)
  match S.2 with
  | Res.err e => (S.1, Res.err e)
  | Res.ok =>
    let T := stopNetemContainer w c netInterface dryrun
    (S.1 ++ Event.sleep duration ::
      Event.log (pre ++ "Stopping netem on container " ++ c.id) :: T.1, T.2)

/-! ## CLI surface (`src/main.go`) -/

/-- The `Re2Prefix` constant of `main.go` (`"re2:"`). -/
def re2Pre : String := "re2:"

/-- Go's `strings.Trim(s, cutset)`: removes all leading and trailing
characters belonging to `cutset`. -/
def goTrim (s cutset : String) : String :=
  ⟨((s.data.dropWhile fun ch => cutset.data.contains ch).reverse.dropWhile
    fun ch => cutset.data.contains ch).reverse⟩

/-- `getNamesOrPattern` (main.go lines 336-354): no arguments means all
containers; more than one argument is a name list; a single argument is
used only when it carries the `re2:` marker, in which case the pattern is
`strings.Trim(first, "re2:")`. -/
def getNamesOrPattern (args : List String) : List String × String :=
  match args with
  | [] => ([], "")
  | first :: rest =>
    if 0 < rest.length then (first :: rest, "")
    else if goHasPre first re2Pre then ([], goTrim first re2Pre)
    else ([], "")

/-- The source text of the interface regexp in `netemDelay` (main.go line 427). -/
def reInterfaceStr : String := "[a-zA-Z]+[0-9]\x7b0,2\x7d"

/-- The leftmost match of `[a-zA-Z]+[0-9]{0,2}` starting at the head of
`cs` (head assumed alphabetic): the maximal run of letters, then up to two
digits. -/
def ifaceMatchAt (cs : List Char) : List Char :=
  let letters := cs.takeWhile Char.isAlpha
  let rest := cs.dropWhile Char.isAlpha
  letters ++ (rest.takeWhile Char.isDigit).take 2

/-- Go's `regexp.MustCompile("[a-zA-Z]+[0-9]{0,2}").FindString`: the
leftmost match (empty when there is none). -/
def ifaceFindList : List Char → List Char
  | [] => []
  | ch :: cs => if ch.isAlpha then ifaceMatchAt (ch :: cs) else ifaceFindList cs

/-- `FindString` on strings. -/
def ifaceFindStr (s : String) : String := ⟨ifaceFindList s.data⟩

/-- The interface-name property the spec asks for: the whole string matches
`[a-zA-Z]+[0-9]{0,2}` (at least one letter, then at most two digits,
nothing else). -/
def ifaceWholeMatch (s : String) : Bool :=
  let letters := s.data.takeWhile Char.isAlpha
  let rest := s.data.dropWhile Char.isAlpha
  decide (0 < letters.length) && rest.all Char.isDigit && decide (rest.length ≤ 2)

/-- `CommandPause` of the action package as built by `pause` (main.go line 487). -/
structure CommandPause where
  duration : Nat
deriving DecidableEq, Repr

/-- `CommandNetemDelay` of the action package as built by `netemDelay`
(main.go lines 459-466). -/
structure CommandNetemDelay where
  netInterface : String
  ip : Option String
  duration : Nat
  amount : Int
  variation : Int
  correlation : Int
deriving DecidableEq, Repr

/-- `beforeCommand` (main.go lines 324-334): reject an empty interval flag,
then parse it (`parseDuration` is the `time.ParseDuration` oracle); the
parsed interval becomes `gInterval`.  No other validation happens here. -/
def beforeCommand (parseDuration : String → ERes Nat) (intervalString : String) : ERes Nat :=
  if intervalString = "" then ERes.err "Undefined interval value."
  else parseDuration intervalString

/-- The validation part of `pause` (main.go lines 472-490): reject an empty
duration flag, parse it, and build the command.  The scheduler interval is
never consulted. -/
def pauseValidate (parseDuration : String → ERes Nat) (durationString : String) :
    ERes CommandPause :=
  if durationString = "" then ERes.err "Undefined duration interval"
  else match parseDuration durationString with
    | ERes.err e => ERes.err e
    | ERes.ok d => ERes.ok { duration := d }

/-- The validation part of `netemDelay` (main.go lines 403-469): duration
presence and parse, interface name against `FindString` of
`[a-zA-Z]+[0-9]{0,2}`, then the amount/variation/correlation bounds.
`targetIP` is the already-parsed `net.ParseIP` result (`none` = `nil`).
The scheduler interval is never consulted. -/
def netemDelayValidate (parseDuration : String → ERes Nat)
    (durationString netInterface : String) (targetIP : Option String)
    (amount variation correlation : Int) : ERes CommandNetemDelay :=
  if durationString = "" then ERes.err "Undefined duration interval"
  else match parseDuration durationString with
    | ERes.err e => ERes.err e
    | ERes.ok duration =>
      if ifaceFindStr netInterface ≠ netInterface then
        ERes.err ("Bad network interface name. Must match \x27" ++ reInterfaceStr ++ "\x27")
      else if amount ≤ 0 then ERes.err "Invalid delay amount"
      else if variation < 0 ∨ amount < variation then ERes.err "Invalid delay variation"
      else if correlation < 0 ∨ (100 : Int) < correlation then
        ERes.err "Invalid delay correlation: must be between 0 and 100"
      else ERes.ok ⟨netInterface, targetIP, duration, amount, variation, correlation⟩

/-! ## Concrete containers, worlds and oracles used by witnesses -/

/-- The container of the package tests: id `abc123`, name `foo`, no labels. -/
def container0 : Container := { id := "abc123", name := "foo", labels := [] }

/-- A runtime in which every operation succeeds, every exec is created as
`testID`, and every inspect fails with `Not Found` (the container is gone). -/
def wRemoved : DockerWorld where
  killResult := fun _ _ => none
  inspect := fun _ _ => InspectResult.err "Not Found"
  pauseResult := fun _ => none
  unpauseResult := fun _ => none
  removeResult := fun _ _ => none
  execCreate := fun _ _ => ERes.ok "testID"
  execStart := fun _ => none

/-- A runtime in which every operation succeeds and every inspect reports
the container present and not running (it stopped at once). -/
def wStopsNow : DockerWorld where
  killResult := fun _ _ => none
  inspect := fun _ _ => InspectResult.state false
  pauseResult := fun _ => none
  unpauseResult := fun _ => none
  removeResult := fun _ _ => none
  execCreate := fun _ _ => ERes.ok "testID"
  execStart := fun _ => none

/-- A `time.ParseDuration` oracle knowing `1s` and `5s`. -/
def parse15 : String → ERes Nat :=
  fun s => if s = "1s" then ERes.ok 1
    else if s = "5s" then ERes.ok 5
    else ERes.err "time: invalid duration"

/-- A trace whose log lines all carry the `DRY: ` marker (and there is at
least one such line). -/
def dryLogged (evs : List Event) : Prop :=
  logsOf evs ≠ [] ∧ ∀ l ∈ logsOf evs, ∃ r, l = dryRunPre ++ r

/-! ## Helper lemmas -/

lemma length_takeWhile_le {α : Type} (p : α → Bool) (l : List α) :
    (l.takeWhile p).length ≤ l.length := by
  induction l with
  | nil => simp
  | cons a l ih =>
    rw [List.takeWhile_cons]
    by_cases h : p a = true
    · simpa [h] using ih
    · simp [h]

lemma ifaceMatchAt_length_le (cs : List Char) : (ifaceMatchAt cs).length ≤ cs.length := by
  unfold ifaceMatchAt
  have h1 := congrArg List.length (List.takeWhile_append_dropWhile Char.isAlpha cs)
  have h2 : (((cs.dropWhile Char.isAlpha).takeWhile Char.isDigit).take 2).length ≤
      (cs.dropWhile Char.isAlpha).length := by
    rw [List.length_take]
    exact le_trans (min_le_right _ _) (length_takeWhile_le _ _)
  simp only [List.length_append] at h1 ⊢
  omega

lemma ifaceFindList_length_le : ∀ cs : List Char, (ifaceFindList cs).length ≤ cs.length := by
  intro cs
  induction cs with
  | nil => simp [ifaceFindList]
  | cons ch cs ih =>
    by_cases h : ch.isAlpha = true
    · simp only [ifaceFindList, h, if_true]
      exact ifaceMatchAt_length_le _
    · simp only [ifaceFindList, h, if_false]
      exact le_trans ih (by simp)

lemma ifaceFindList_eq_self : ∀ {cs : List Char}, cs ≠ [] → ifaceFindList cs = cs →
    0 < (cs.takeWhile Char.isAlpha).length ∧
    (cs.dropWhile Char.isAlpha).all Char.isDigit = true ∧
    (cs.dropWhile Char.isAlpha).length ≤ 2 := by
  intro cs hne h
  match cs with
  | ch :: cs' =>
    by_cases hA : ch.isAlpha = true
    · simp only [ifaceFindList, hA, if_true] at h
      unfold ifaceMatchAt at h
      have hsplit := List.takeWhile_append_dropWhile Char.isAlpha (ch :: cs')
      have hDR : ((List.dropWhile Char.isAlpha (ch :: cs')).takeWhile Char.isDigit).take 2 =
          List.dropWhile Char.isAlpha (ch :: cs') := by
        have hLL : (ch :: cs').takeWhile Char.isAlpha ++
            ((List.dropWhile Char.isAlpha (ch :: cs')).takeWhile Char.isDigit).take 2 =
            (ch :: cs').takeWhile Char.isAlpha ++ List.dropWhile Char.isAlpha (ch :: cs') := by
          rw [hsplit]; exact h
        exact List.append_cancel_left hLL
      refine ⟨?_, ?_, ?_⟩
      · rw [List.takeWhile_cons, if_pos hA]; simp
      · rw [List.all_eq_true]
        intro x hx
        rw [← hDR] at hx
        exact List.mem_takeWhile_imp (List.mem_of_mem_take hx)
      · conv_lhs => rw [← hDR]
        rw [List.length_take]
        exact min_le_left _ _
    · rw [show ifaceFindList (ch :: cs') = ifaceFindList cs' by simp [ifaceFindList, hA]] at h
      have hle := ifaceFindList_length_le cs'
      rw [h] at hle
      simp at hle

lemma ifaceFindStr_eq_self_whole {s : String} (hne : s ≠ "") (h : ifaceFindStr s = s) :
    ifaceWholeMatch s = true := by
  obtain ⟨data⟩ := s
  have hd : data ≠ [] := by
    intro hd; exact hne (by rw [hd])
  have h' : ifaceFindList data = data := congrArg String.data h
  obtain ⟨h1, h2, h3⟩ := ifaceFindList_eq_self hd h'
  simp only [ifaceWholeMatch, Bool.and_eq_true, decide_eq_true_eq]
  exact ⟨⟨h1, h2⟩, h3⟩

lemma waitForStop_inspect_count (w : DockerWorld) (cid : String) :
    ∀ fuel t, (callsOf (waitForStop w cid fuel t).1).length ≤ fuel := by
  intro fuel
  induction fuel with
  | zero => intro t; simp [waitForStop, callsOf]
  | succ fuel ih =>
    intro t
    rcases hi : w.inspect cid t with e | running
    · simp [waitForStop, hi, callsOf]
    · cases running
      · simp [waitForStop, hi, callsOf]
      · simp only [waitForStop, hi, callsOf, List.filterMap_cons]
        have := ih (t + 1)
        simp only [callsOf] at this
        simpa using Nat.succ_le_succ this

lemma string_append_assoc (a b c : String) : a ++ b ++ c = a ++ (b ++ c) := by
  obtain ⟨xa⟩ := a
  obtain ⟨xb⟩ := b
  obtain ⟨xc⟩ := c
  show String.mk (xa ++ xb ++ xc) = String.mk (xa ++ (xb ++ xc))
  rw [List.append_assoc]

lemma dry_extend {l : String} (h : ∃ q, l = dryRunPre ++ q) (x : String) :
    ∃ q, l ++ x = dryRunPre ++ q := by
  obtain ⟨q, hq⟩ := h
  exact ⟨q ++ x, by rw [hq, string_append_assoc]⟩

lemma KillContainer_dry (w : DockerWorld) (c : Container) (sig : String) :
    KillContainer w c sig true =
      ([Event.log (dryRunPre ++ "Killing " ++ c.name ++ " (" ++ c.id ++ ") with signal " ++ sig)],
       Res.ok) := rfl

lemma StopContainer_dry (w : DockerWorld) (c : Container) (timeout : Nat) :
    StopContainer w c timeout true =
      ([Event.log (dryRunPre ++ "Stopping " ++ c.name ++ " (" ++ c.id ++ ") with " ++
        effectiveStopSignal c)], Res.ok) := rfl

lemma RemoveContainer_dry (w : DockerWorld) (c : Container) (force links volumes : Bool) :
    RemoveContainer w c force links volumes true =
      ([Event.log (dryRunPre ++ "Removing container " ++ c.id)], Res.ok) := rfl

lemma PauseContainer_dry (w : DockerWorld) (c : Container) (d : Nat) :
    PauseContainer w c d true =
      ([Event.log (dryRunPre ++ "Pausing container " ++ c.id ++ " for " ++ toString d)],
       Res.ok) := rfl

lemma NetemContainer_dry_none (w : DockerWorld) (c : Container) (iface spec : String) (d : Nat) :
    NetemContainer w c iface spec none d true =
      ([Event.log (dryRunPre ++ "Running netem command \x27" ++ spec ++ "\x27 on container " ++
          c.id ++ " for " ++ toString d),
        Event.log (dryRunPre ++ "Start netem for container " ++ c.id ++ " on \x27" ++ iface ++
          "\x27 with command \x27" ++ spec ++ "\x27"),
        Event.sleep d,
        Event.log (dryRunPre ++ "Stopping netem on container " ++ c.id),
        Event.log (dryRunPre ++ "Stop netem for container " ++ c.id ++ " on \x27" ++ iface ++
          "\x27")],
       Res.ok) := rfl

lemma NetemContainer_dry_some (w : DockerWorld) (c : Container) (iface spec ip : String)
    (d : Nat) :
    NetemContainer w c iface spec (some ip) d true =
      ([Event.log (dryRunPre ++ "Running netem command \x27" ++ spec ++ "\x27 on container " ++
          c.id ++ " with filter " ++ ip ++ " for " ++ toString d),
        Event.log (dryRunPre ++ "Start netem for container " ++ c.id ++ " on \x27" ++ iface ++
          "\x27 with command \x27" ++ spec ++ "\x27, filter by IP \x27" ++ ip ++ "\x27"),
        Event.sleep d,
        Event.log (dryRunPre ++ "Stopping netem on container " ++ c.id),
        Event.log (dryRunPre ++ "Stop netem for container " ++ c.id ++ " on \x27" ++ iface ++
          "\x27")],
       Res.ok) := rfl

/-! ## Claims -/

/-- C1: For every container, chaos kind (kill, stop, remove, pause, netem)
and parameter set, the dry-run variant of the runtime-client operation
issues no runtime call at all (so in particular no kill, stop, pause,
unpause, remove or exec-create/exec-start), logs `DRY: `-marked lines, and
returns success. -/
theorem c1_dry_run_no_mutating_calls (w : DockerWorld) (c : Container) (sig : String)
    (timeout : Nat) (force links volumes : Bool) (iface spec : String)
    (ipOpt : Option String) (d dn : Nat) :
    (callsOf (KillContainer w c sig true).1 = [] ∧ (KillContainer w c sig true).2 = Res.ok ∧
      dryLogged (KillContainer w c sig true).1) ∧
    (callsOf (StopContainer w c timeout true).1 = [] ∧
      (StopContainer w c timeout true).2 = Res.ok ∧
      dryLogged (StopContainer w c timeout true).1) ∧
    (callsOf (RemoveContainer w c force links volumes true).1 = [] ∧
      (RemoveContainer w c force links volumes true).2 = Res.ok ∧
      dryLogged (RemoveContainer w c force links volumes true).1) ∧
    (callsOf (PauseContainer w c d true).1 = [] ∧ (PauseContainer w c d true).2 = Res.ok ∧
      dryLogged (PauseContainer w c d true).1) ∧
    (callsOf (NetemContainer w c iface spec ipOpt dn true).1 = [] ∧
      (NetemContainer w c iface spec ipOpt dn true).2 = Res.ok ∧
      dryLogged (NetemContainer w c iface spec ipOpt dn true).1) := by
  refine ⟨⟨rfl, rfl, ?_⟩, ⟨rfl, rfl, ?_⟩, ⟨rfl, rfl, ?_⟩, ⟨rfl, rfl, ?_⟩, ?_⟩
  · rw [KillContainer_dry]
    refine ⟨by simp [logsOf], ?_⟩
    intro l hl
    simp [logsOf] at hl
    subst hl
    repeat (first | exact ⟨_, rfl⟩ | apply dry_extend)
  · rw [StopContainer_dry]
    refine ⟨by simp [logsOf], ?_⟩
    intro l hl
    simp [logsOf] at hl
    subst hl
    repeat (first | exact ⟨_, rfl⟩ | apply dry_extend)
  · rw [RemoveContainer_dry]
    refine ⟨by simp [logsOf], ?_⟩
    intro l hl
    simp [logsOf] at hl
    subst hl
    repeat (first | exact ⟨_, rfl⟩ | apply dry_extend)
  · rw [PauseContainer_dry]
    refine ⟨by simp [logsOf], ?_⟩
    intro l hl
    simp [logsOf] at hl
    subst hl
    repeat (first | exact ⟨_, rfl⟩ | apply dry_extend)
  · cases ipOpt with
    | none =>
      refine ⟨rfl, rfl, ?_⟩
      rw [NetemContainer_dry_none]
      refine ⟨by simp [logsOf], ?_⟩
      intro l hl
      simp [logsOf] at hl
      rcases hl with rfl | rfl | rfl | rfl <;>
        repeat (first | exact ⟨_, rfl⟩ | apply dry_extend)
    | some ip =>
      refine ⟨rfl, rfl, ?_⟩
      rw [NetemContainer_dry_some]
      refine ⟨by simp [logsOf], ?_⟩
      intro l hl
      simp [logsOf] at hl
      rcases hl with rfl | rfl | rfl | rfl <;>
        repeat (first | exact ⟨_, rfl⟩ | apply dry_extend)

/-- C10: In dry-run the two transient disruptions differ in their treatment
of time: `PauseContainer` returns at once (no pause call, no sleep, no
unpause), while `NetemContainer` makes no runtime call but still sleeps for
the full duration before returning success. -/
theorem c10_dry_transient_asymmetry (w : DockerWorld) (c : Container) (d : Nat)
    (iface spec : String) (ipOpt : Option String) :
    (PauseContainer w c d true).2 = Res.ok ∧
    sleepsOf (PauseContainer w c d true).1 = [] ∧
    callsOf (PauseContainer w c d true).1 = [] ∧
    (NetemContainer w c iface spec ipOpt d true).2 = Res.ok ∧
    sleepsOf (NetemContainer w c iface spec ipOpt d true).1 = [d] ∧
    callsOf (NetemContainer w c iface spec ipOpt d true).1 = [] := by
  cases ipOpt with
  | none => exact ⟨rfl, rfl, rfl, rfl, rfl, rfl⟩
  | some ip => exact ⟨rfl, rfl, rfl, rfl, rfl, rfl⟩

/-- C4: The claim says the runtime remove request's remove-links flag equals
the `links` argument and its remove-volumes flag equals the `volumes`
argument.  The code swaps them: with `force := true`, `links := true`,
`volumes := false` the single remove call carries
`removeVolumes := true` (the links argument) and `removeLinks := false`
(the volumes argument). -/
theorem c4_remove_flags_swapped :
    callsOf (RemoveContainer wRemoved container0 true true false false).1 =
      [RCall.remove "abc123" { removeVolumes := true, removeLinks := false, force := true }] ∧
    (RemoveContainer wRemoved container0 true true false false).2 = Res.ok := ⟨rfl, rfl⟩

/-- C5: The claim says a single `re2:`-marked argument has exactly the four
leading characters removed.  The code uses `strings.Trim(first, "re2:")`,
which also strips the trailing `2` of `"re2:abc2"`: the pattern becomes
`"abc"`, not the prefix-stripped `"abc2"`. -/
theorem c5_trim_not_prefix_strip :
    getNamesOrPattern ["re2:abc2"] = ([], "abc") ∧
    goTrim "re2:abc2" re2Pre ≠ "abc2" := by
  exact ⟨rfl, by decide⟩

/-- C6: The claim says a single argument without the `re2:` marker yields a
one-element name list.  The code leaves both names and pattern empty for
such an argument — the same selector as zero arguments, i.e. all running
containers. -/
theorem c6_single_name_selects_all :
    getNamesOrPattern ["mycontainer"] = ([], "") ∧
    getNamesOrPattern [] = ([], "") := ⟨rfl, rfl⟩

/-- C2 counterexample: in a runtime whose very first inspect reports the
container already stopped (`running = false`), non-dry `StopContainer`
still issues the follow-up `SIGKILL` — refuting "a container that stopped
within the wait never receives SIGKILL". -/
theorem c2_counterexample :
    callsOf (StopContainer wStopsNow container0 10 false).1 =
      [RCall.kill "abc123" "SIGTERM", RCall.inspect "abc123",
       RCall.kill "abc123" "SIGKILL", RCall.inspect "abc123"] ∧
    wStopsNow.inspect "abc123" 0 = InspectResult.state false := ⟨rfl, rfl⟩

/-- C2 (amended): non-dry `StopContainer` first sends the label-overridden
stop signal (else `SIGTERM`); the first polling wait makes at most
`wait_seconds` inspects; and — provided the initial signal send succeeded —
the follow-up `SIGKILL` is always sent, regardless of whether the container
stopped during the wait. -/
theorem c2_stop_always_sigkill (w : DockerWorld) (c : Container) (timeout : Nat)
    (h : w.killResult c.id (effectiveStopSignal c) = none) :
    (callsOf (StopContainer w c timeout false).1).head? =
      some (RCall.kill c.id (effectiveStopSignal c)) ∧
    RCall.kill c.id defaultKillSignal ∈ callsOf (StopContainer w c timeout false).1 ∧
    (callsOf (waitForStop w c.id timeout 0).1).length ≤ timeout := by
  refine ⟨?_, ?_, waitForStop_inspect_count w c.id timeout 0⟩
  · simp only [StopContainer, Bool.false_eq_true, if_false, h]
    cases h2 : w.killResult c.id defaultKillSignal <;>
      simp [h2, callsOf]
  · simp only [StopContainer, Bool.false_eq_true, if_false, h]
    cases h2 : w.killResult c.id defaultKillSignal <;>
      simp [h2, callsOf, List.mem_filterMap]

/-- C2 witness: the amended statement instantiated in the runtime where the
container stops at once. -/
theorem c2_witness :
    wStopsNow.killResult container0.id (effectiveStopSignal container0) = none ∧
    ((callsOf (StopContainer wStopsNow container0 10 false).1).head? =
      some (RCall.kill container0.id (effectiveStopSignal container0)) ∧
    RCall.kill container0.id defaultKillSignal ∈
      callsOf (StopContainer wStopsNow container0 10 false).1 ∧
    (callsOf (waitForStop wStopsNow container0.id 10 0).1).length ≤ 10) :=
  ⟨rfl, c2_stop_always_sigkill wStopsNow container0 10 rfl⟩

/-- C3 counterexample: in a runtime where every inspect after `SIGKILL`
succeeds with `running = false`, `StopContainer` returns the
"could not be stopped" error — refuting "an inspect success with
running=false yields success". -/
theorem c3_counterexample :
    (StopContainer wStopsNow container0 10 false).2 =
      Res.err "Container foo (abc123) could not be stopped" ∧
    wStopsNow.inspect "abc123" 0 = InspectResult.state false := ⟨rfl, rfl⟩

/-- C3 (amended): after the follow-up `SIGKILL` (both signal sends
succeeding), `StopContainer` returns success if and only if an inspect
during the second polling wait fails (container removed); an inspect
success with `running = false`, like `running = true` through the whole
wait, yields the "could not be stopped" error. -/
theorem c3_stop_success_iff_inspect_failure (w : DockerWorld) (c : Container) (timeout : Nat)
    (h1 : w.killResult c.id (effectiveStopSignal c) = none)
    (h2 : w.killResult c.id defaultKillSignal = none) :
    ((StopContainer w c timeout false).2 = Res.ok ↔
      ∃ e, (waitForStop w c.id timeout (waitForStop w c.id timeout 0).2.2).2.1 = Res.err e) := by
  simp only [StopContainer, Bool.false_eq_true, if_false, h1, h2]
  cases hW : (waitForStop w c.id timeout (waitForStop w c.id timeout 0).2.2).2.1 with
  | ok => simp [hW]
  | err e => simp [hW]

/-- C3 witness: the amended statement instantiated in the runtime where
every inspect fails with `Not Found`. -/
theorem c3_witness :
    wRemoved.killResult container0.id (effectiveStopSignal container0) = none ∧
    wRemoved.killResult container0.id defaultKillSignal = none ∧
    ((StopContainer wRemoved container0 1 false).2 = Res.ok ↔
      ∃ e, (waitForStop wRemoved container0.id 1
        (waitForStop wRemoved container0.id 1 0).2.2).2.1 = Res.err e) :=
  ⟨rfl, rfl, c3_stop_success_iff_inspect_failure wRemoved container0 1 rfl rfl⟩

lemma netemDelayValidate_unfold (parse : String → ERes Nat) (ds : String) (d : Nat)
    (iface : String) (ipOpt : Option String) (am v corr : Int)
    (hds : ds ≠ "") (hp : parse ds = ERes.ok d) :
    netemDelayValidate parse ds iface ipOpt am v corr =
      (if ifaceFindStr iface ≠ iface then
        ERes.err ("Bad network interface name. Must match \x27" ++ reInterfaceStr ++ "\x27")
      else if am ≤ 0 then ERes.err "Invalid delay amount"
      else if v < 0 ∨ am < v then ERes.err "Invalid delay variation"
      else if corr < 0 ∨ (100 : Int) < corr then
        ERes.err "Invalid delay correlation: must be between 0 and 100"
      else ERes.ok ⟨iface, ipOpt, d, am, v, corr⟩) := by
  unfold netemDelayValidate
  rw [if_neg hds, hp]

/-- C7 counterexample: with interval `1s` and pause / netem-delay duration
`5s` (duration ≥ interval), validation still succeeds and the commands are
built — refuting "validation fails before the scheduler starts". -/
theorem c7_counterexample :
    beforeCommand parse15 "1s" = ERes.ok 1 ∧
    pauseValidate parse15 "5s" = ERes.ok { duration := 5 } ∧
    netemDelayValidate parse15 "5s" "eth0" none 100 10 20 =
      ERes.ok ⟨"eth0", none, 5, 100, 10, 20⟩ ∧
    (1 : Nat) ≤ 5 := ⟨rfl, rfl, rfl, by omega⟩

/-- C7 (amended): neither `beforeCommand` nor the pause / netem-delay
validation compares the disruption duration with the scheduler interval:
whenever the interval and duration flags are present and parseable (and the
netem parameters are within bounds), both validations succeed — in
particular when the duration is greater than or equal to the interval. -/
theorem c7_no_duration_interval_check
    (parse : String → ERes Nat) (si sd : String) (i d : Nat)
    (hsi : si ≠ "") (hpi : parse si = ERes.ok i)
    (hsd : sd ≠ "") (hpd : parse sd = ERes.ok d)
    (hge : i ≤ d)
    (iface : String) (ipOpt : Option String) (am v corr : Int)
    (hif : ifaceFindStr iface = iface) (ham : 0 < am)
    (hv0 : 0 ≤ v) (hva : v ≤ am) (hc0 : 0 ≤ corr) (hc1 : corr ≤ 100) :
    beforeCommand parse si = ERes.ok i ∧
    pauseValidate parse sd = ERes.ok { duration := d } ∧
    netemDelayValidate parse sd iface ipOpt am v corr =
      ERes.ok ⟨iface, ipOpt, d, am, v, corr⟩ := by
  refine ⟨?_, ?_, ?_⟩
  · unfold beforeCommand
    rw [if_neg hsi]
    exact hpi
  · unfold pauseValidate
    rw [if_neg hsd, hpd]
  · rw [netemDelayValidate_unfold parse sd d iface ipOpt am v corr hsd hpd,
      if_neg (fun hh => hh hif), if_neg (by omega : ¬am ≤ 0),
      if_neg (by omega : ¬(v < 0 ∨ am < v)), if_neg (by omega : ¬(corr < 0 ∨ (100 : Int) < corr))]

/-- C7 witness: the amended statement instantiated at interval `1s` and
duration `5s`. -/
theorem c7_witness :
    (("1s" : String) ≠ "" ∧ parse15 "1s" = ERes.ok 1 ∧ ("5s" : String) ≠ "" ∧
      parse15 "5s" = ERes.ok 5 ∧ (1 : Nat) ≤ 5 ∧ ifaceFindStr "eth0" = "eth0" ∧
      (0 : Int) < 100 ∧ (0 : Int) ≤ 10 ∧ (10 : Int) ≤ 100 ∧ (0 : Int) ≤ 20 ∧
      (20 : Int) ≤ 100) ∧
    (beforeCommand parse15 "1s" = ERes.ok 1 ∧
      pauseValidate parse15 "5s" = ERes.ok { duration := 5 } ∧
      netemDelayValidate parse15 "5s" "eth0" none 100 10 20 =
        ERes.ok ⟨"eth0", none, 5, 100, 10, 20⟩) :=
  ⟨⟨by decide, rfl, by decide, rfl, by omega, rfl, by decide, by decide, by decide, by decide,
    by decide⟩,
   c7_no_duration_interval_check parse15 "1s" "5s" 1 5 (by decide) rfl (by decide) rfl
    (by omega) "eth0" none 100 10 20 rfl (by decide) (by decide) (by decide) (by decide)
    (by decide)⟩

/-- C9 counterexample: the empty interface name does not match
`[a-zA-Z]+[0-9]{0,2}` as a whole string, yet `netemDelay` validation
accepts it (`FindString` returns the empty string, which compares equal to
the input) — refuting "every non-matching interface name is rejected". -/
theorem c9_counterexample :
    netemDelayValidate parse15 "5s" "" none 100 10 20 =
      ERes.ok ⟨"", none, 5, 100, 10, 20⟩ ∧
    ifaceWholeMatch "" = false := ⟨rfl, rfl⟩

/-- C9 (amended): every *non-empty* interface name that does not match
`[a-zA-Z]+[0-9]{0,2}` as a whole string is rejected by `netemDelay`
validation before any exec can be issued, and any interface name carried by
a validated command is either empty or matches the pattern as a whole
string. -/
theorem c9_interface_validation (parse : String → ERes Nat) (ds : String) (d : Nat)
    (iface : String) (ipOpt : Option String) (am v corr : Int)
    (hds : ds ≠ "") (hp : parse ds = ERes.ok d) :
    (iface ≠ "" → ifaceWholeMatch iface = false →
      netemDelayValidate parse ds iface ipOpt am v corr =
        ERes.err ("Bad network interface name. Must match \x27" ++ reInterfaceStr ++ "\x27")) ∧
    (∀ cmd, netemDelayValidate parse ds iface ipOpt am v corr = ERes.ok cmd →
      cmd.netInterface = iface ∧ (iface = "" ∨ ifaceWholeMatch iface = true)) := by
  constructor
  · intro hne hwm
    have hneq : ifaceFindStr iface ≠ iface := by
      intro heq
      have := ifaceFindStr_eq_self_whole hne heq
      rw [hwm] at this
      exact Bool.false_ne_true this
    rw [netemDelayValidate_unfold parse ds d iface ipOpt am v corr hds hp, if_pos hneq]
  · intro cmd hok
    rw [netemDelayValidate_unfold parse ds d iface ipOpt am v corr hds hp] at hok
    by_cases hif : ifaceFindStr iface ≠ iface
    · rw [if_pos hif] at hok
      simp at hok
    · rw [if_neg hif] at hok
      have heq : ifaceFindStr iface = iface := not_not.mp hif
      split_ifs at hok with hα hβ hγ
      simp only [ERes.ok.injEq] at hok
      refine ⟨?_, ?_⟩
      · rw [← hok]
      · by_cases hne : iface = ""
        · exact Or.inl hne
        · exact Or.inr (ifaceFindStr_eq_self_whole hne heq)

/-- C9 witness: the amended statement instantiated at the interface name
`0eth`, which fails the whole-string pattern and is rejected. -/
theorem c9_witness :
    (("5s" : String) ≠ "" ∧ parse15 "5s" = ERes.ok 5 ∧ ("0eth" : String) ≠ "" ∧
      ifaceWholeMatch "0eth" = false) ∧
    netemDelayValidate parse15 "5s" "0eth" none 100 10 20 =
      ERes.err ("Bad network interface name. Must match \x27" ++ reInterfaceStr ++ "\x27") :=
  ⟨⟨by decide, rfl, by decide, by decide⟩,
   (c9_interface_validation parse15 "5s" 5 "0eth" none 100 10 20 (by decide) rfl).1
     (by decide) (by decide)⟩

/-- C8: non-dry netem protocol.  (i)/(ii) if setup fails, the error is
returned and the trace ends with the setup events — no sleep, no teardown;
(iii)/(iv) if setup succeeds, the client sleeps for the duration and then
runs the teardown; (v) unfiltered setup issues exactly one exec whose argv
is the space-split `tc qdisc add dev <iface> root netem <spec-lowercased>`;
(vi) filtered setup issues three execs strictly in order — prio root qdisc,
netem child on parent 1:3, u32 filter with `dport <target-ip> flowid 1:3` —
each started before the next is created; (vii) the teardown trace always
begins with the exec-create of `tc qdisc del dev <iface> root netem`. -/
theorem c8_netem_exec_protocol (w : DockerWorld) (c : Container)
    (iface spec ipStr : String) (d : Nat) (e1 e2 e3 e4 : String) :
    (∀ e, (startNetemContainer w c iface spec false).2 = Res.err e →
      NetemContainer w c iface spec none d false =
        (Event.log ("Running netem command \x27" ++ spec ++ "\x27 on container " ++ c.id ++
          " for " ++ toString d) :: (startNetemContainer w c iface spec false).1,
         Res.err e)) ∧
    (∀ e, (startNetemContainerIPFilter w c iface spec ipStr false).2 = Res.err e →
      NetemContainer w c iface spec (some ipStr) d false =
        (Event.log ("Running netem command \x27" ++ spec ++ "\x27 on container " ++ c.id ++
          " with filter " ++ ipStr ++ " for " ++ toString d) ::
          (startNetemContainerIPFilter w c iface spec ipStr false).1,
         Res.err e)) ∧
    ((startNetemContainer w c iface spec false).2 = Res.ok →
      NetemContainer w c iface spec none d false =
        ((Event.log ("Running netem command \x27" ++ spec ++ "\x27 on container " ++ c.id ++
          " for " ++ toString d) :: (startNetemContainer w c iface spec false).1) ++
          (Event.sleep d :: Event.log ("Stopping netem on container " ++ c.id) ::
            (stopNetemContainer w c iface false).1),
         (stopNetemContainer w c iface false).2)) ∧
    ((startNetemContainerIPFilter w c iface spec ipStr false).2 = Res.ok →
      NetemContainer w c iface spec (some ipStr) d false =
        ((Event.log ("Running netem command \x27" ++ spec ++ "\x27 on container " ++ c.id ++
          " with filter " ++ ipStr ++ " for " ++ toString d) ::
          (startNetemContainerIPFilter w c iface spec ipStr false).1) ++
          (Event.sleep d :: Event.log ("Stopping netem on container " ++ c.id) ::
            (stopNetemContainer w c iface false).1),
         (stopNetemContainer w c iface false).2)) ∧
    (w.execCreate c.id (goSplitSpace ("tc qdisc add dev " ++ iface ++ " root netem " ++
        goToLower spec)) = ERes.ok e1 →
      w.execStart e1 = none →
      callsOf (startNetemContainer w c iface spec false).1 =
        [RCall.execCreate c.id (goSplitSpace ("tc qdisc add dev " ++ iface ++
          " root netem " ++ goToLower spec)) true,
         RCall.execStart e1] ∧
      (startNetemContainer w c iface spec false).2 = Res.ok) ∧
    (w.execCreate c.id (goSplitSpace ("tc qdisc add dev " ++ iface ++
        " root handle 1: prio")) = ERes.ok e2 →
      w.execStart e2 = none →
      w.execCreate c.id (goSplitSpace ("tc qdisc add dev " ++ iface ++
        " parent 1:3 netem " ++ goToLower spec)) = ERes.ok e3 →
      w.execStart e3 = none →
      w.execCreate c.id (goSplitSpace ("tc filter add dev " ++ iface ++
        " protocol ip parent 1:0 prio 3 u32 match ip dport " ++ goToLower ipStr ++
        " flowid 1:3")) = ERes.ok e4 →
      w.execStart e4 = none →
      callsOf (startNetemContainerIPFilter w c iface spec ipStr false).1 =
        [RCall.execCreate c.id (goSplitSpace ("tc qdisc add dev " ++ iface ++
          " root handle 1: prio")) true,
         RCall.execStart e2,
         RCall.execCreate c.id (goSplitSpace ("tc qdisc add dev " ++ iface ++
          " parent 1:3 netem " ++ goToLower spec)) true,
         RCall.execStart e3,
         RCall.execCreate c.id (goSplitSpace ("tc filter add dev " ++ iface ++
          " protocol ip parent 1:0 prio 3 u32 match ip dport " ++ goToLower ipStr ++
          " flowid 1:3")) true,
         RCall.execStart e4] ∧
      (startNetemContainerIPFilter w c iface spec ipStr false).2 = Res.ok) ∧
    ((callsOf (stopNetemContainer w c iface false).1).head? =
      some (RCall.execCreate c.id (goSplitSpace ("tc qdisc del dev " ++ iface ++
        " root netem")) true)) := by
  refine ⟨?_, ?_, ?_, ?_, ?_, ?_, ?_⟩
  · intro e he
    simp only [NetemContainer, he]
    rfl
  · intro e he
    simp only [NetemContainer, he]
    rfl
  · intro hok
    simp only [NetemContainer, hok]
    rfl
  · intro hok
    simp only [NetemContainer, hok]
    rfl
  · intro h1 h2
    constructor
    · simp only [startNetemContainer, execOnContainer, Bool.false_eq_true, if_false, h1, h2]
      simp [callsOf]
    · simp only [startNetemContainer, execOnContainer, Bool.false_eq_true, if_false, h1, h2]
  · intro h1 h2 h3 h4 h5 h6
    constructor
    · simp only [startNetemContainerIPFilter, execOnContainer, Bool.false_eq_true, if_false,
        h1, h2, h3, h4, h5, h6]
      simp [callsOf]
    · simp only [startNetemContainerIPFilter, execOnContainer, Bool.false_eq_true, if_false,
        h1, h2, h3, h4, h5, h6]
  · cases hec : w.execCreate c.id (goSplitSpace ("tc qdisc del dev " ++ iface ++ " root netem"))
      with
    | ok eid => simp [stopNetemContainer, execOnContainer, hec, callsOf]
    | err e => simp [stopNetemContainer, execOnContainer, hec, callsOf]

/-- C8 witness: instantiated in the all-succeeding runtime at `eth0` with
spec `delay 1000MS` — the single unfiltered exec argv is the lowercased
add command. -/
theorem c8_witness :
    (wRemoved.execCreate container0.id (goSplitSpace ("tc qdisc add dev " ++ "eth0" ++
      " root netem " ++ goToLower "delay 1000MS")) = ERes.ok "testID" ∧
     wRemoved.execStart "testID" = none) ∧
    (callsOf (startNetemContainer wRemoved container0 "eth0" "delay 1000MS" false).1 =
      [RCall.execCreate container0.id (goSplitSpace ("tc qdisc add dev " ++ "eth0" ++
        " root netem " ++ goToLower "delay 1000MS")) true,
       RCall.execStart "testID"] ∧
     (startNetemContainer wRemoved container0 "eth0" "delay 1000MS" false).2 = Res.ok) :=
  ⟨⟨rfl, rfl⟩,
   (c8_netem_exec_protocol wRemoved container0 "eth0" "delay 1000MS" "10.10.0.1" 1
     "testID" "testID" "testID" "testID").2.2.2.2.1 rfl rfl⟩

end Pumba
